import Mathlib

/-!
Shallow embedding of `ec2_cluster/infra/EC2Node.py`.

The provider (the EC2 API) is modelled as an explicit `World`: the list of
instances that currently exist in the region.  Each method of the Python
class `EC2Node` becomes a pure function that takes the world and the handle,
and returns its result together with the updated handle (the lazy cache is
the handle's only mutable field), the updated world where the method mutates
provider state, and the trace of remote API calls it issued.
-/

/-- One `{'Key': ..., 'Value': ...}` EC2 tag. -/
structure Tag where
  key : String
  value : String
deriving DecidableEq, Repr

/-- The provider-side description of one EC2 instance: the fields of
`describe_instances`' per-instance record that `EC2Node` reads, plus the
state and the tag list which the API filters consult.  `state` is the
instance-state-name string (`"pending"`, `"running"`, `"shutting-down"`,
`"terminated"`, `"stopping"`, `"stopped"`).  `securityGroups` holds the
`GroupId` of each attached group.  `publicIpAddress` is `none` when the
`PublicIpAddress` key is absent from the API response. -/
structure Ec2Instance where
  instanceId : String
  state : String
  privateIpAddress : String
  publicIpAddress : Option String
  securityGroups : List String
  tags : List Tag
deriving DecidableEq, Repr

/-- The provider's view of the region: every instance that exists. -/
abbrev World := List Ec2Instance

/-- Parameters of the `Ebs` block device mapping built by `launch`:
`SnapshotId`, `VolumeSize`, `VolumeType`, and `Iops` which is present only
when the Python value `iops` is truthy (`if iops:`). -/
structure EbsParams where
  snapshot_id : String
  volume_size_gb : Nat
  volume_type : String
  iops : Option Nat
deriving DecidableEq, Repr

/-- The `Placement` argument: `AvailabilityZone` always, `GroupName` only
when a placement group was supplied. -/
structure PlacementParams where
  az : String
  group_name : Option String
deriving DecidableEq, Repr

/-- The full argument record of one `run_instances` call, as `launch`
assembles it. -/
structure RunInstancesCall where
  ebs_params : EbsParams
  ami_id : String
  instance_type : String
  key_name : String
  placement : PlacementParams
  security_group_ids : List String
  subnet_id : String
  dry_run : Bool
  ebs_optimized : Bool
  iam_role : String
  eia_types : List String
  all_tags : List Tag
deriving DecidableEq, Repr

/-- One remote API call issued by the handle.  `describeInstances` records
the tag:Name value and the instance-state-name list of the two filters;
`waiter` records which blocking waiter was entered. -/
inductive ApiCall where
  | describeInstances (name : String) (states : List String)
  | runInstances (call : RunInstancesCall)
  | terminateInstances (instanceIds : List String) (dryRun : Bool)
  | deleteTags (instanceId : String) (keys : List String)
  | modifyInstanceAttribute (instanceId : String) (groups : List String)
  | waiter (kind : String)
deriving DecidableEq, Repr

/-- Which `assert` of `launch`'s validation block fired. -/
inductive VKind where
  | sgEmpty
  | eiaType
  | iopsRequired
  | tagNameReserved
deriving DecidableEq, Repr

/-- The error taxonomy: the `RuntimeError`s and `AssertionError`s the class
raises.  `notFound` is the "Could not find info for instance" error,
`alreadyExists` the duplicate-Name guard of `launch`, `invalidOperation`
the "Cannot remove security group if the instance isn't running" error. -/
inductive Err where
  | notFound
  | alreadyExists
  | invalidOperation
  | validation (kind : VKind)
deriving DecidableEq, Repr

/-- The handle: `self.name`, `self.region`, and the lazily loaded
`self._instance_info` cache (`None` at construction). -/
structure EC2Node where
  name : String
  region : String
  instance_info : Option Ec2Instance
deriving DecidableEq, Repr

/-- `EC2Node.__init__`: stores name and region, cache starts empty. -/
def EC2Node.init (name region : String) : EC2Node :=
  { name := name, region := region, instance_info := none }

/-- Is the first character list an initial segment of the second? -/
def isInitialSegment : List Char → List Char → Bool
  | [], _ => true
  | _ :: _, [] => false
  | p :: ps, s :: ss => p == s && isInitialSegment ps ss

/-- Python's `str.startswith`, written on the underlying character lists
so that concrete instances evaluate inside the kernel: does `s` start
with `pre`? -/
def strStartsWith (s pre : String) : Bool :=
  isInitialSegment pre.data s.data

/-- Does the instance carry a `Name` tag whose value is `n`?  This is what
the `{'Name': 'tag:Name', 'Values': [self.name]}` filter selects. -/
def hasNameTag (i : Ec2Instance) (n : String) : Bool :=
  i.tags.any (fun t => t.key == "Name" && t.value == n)

/-- The instances a `describe_instances` call with the class's two filters
returns: Name tag equals `n` and state is one of `states`.  The boto3
response groups these into reservations; `EC2Node` only ever asks whether
the reservation list is nonempty and, if so, takes
`Reservations[0].Instances[0]`, so the flat matching list (in provider
order) carries all the information the class consumes: the reservation
list is nonempty exactly when this list is, and the first reservation's
first instance is this list's head. -/
def matchQuery (w : World) (n : String) (states : List String) : List Ec2Instance :=
  w.filter (fun i => hasNameTag i n && states.contains i.state)

/-- The state list `['running', 'pending']` used by
`query_for_instance_info` and `is_running_or_pending`. -/
def runningOrPending : List String := ["running", "pending"]

/-- Result of an operation that can only touch the handle's cache:
the return value (or the raised error), the handle afterwards, and the
remote calls issued. -/
structure AccessOutcome (α : Type) where
  result : Except Err α
  node : EC2Node
  calls : List ApiCall
deriving Repr

/-- Result of an operation that can also mutate provider state. -/
structure MutOutcome (α : Type) where
  result : Except Err α
  node : EC2Node
  world : World
  calls : List ApiCall
deriving Repr

/-- `query_for_instance_info`: one `describe_instances` call filtered on
the Name tag and `['running', 'pending']`; `None` when no reservation
matched, else `Reservations[0].Instances[0]`. -/
def query_for_instance_info (w : World) (nd : EC2Node) :
    Option Ec2Instance × List ApiCall :=
  ((matchQuery w nd.name runningOrPending).head?,
   [ApiCall.describeInstances nd.name runningOrPending])

/-- `_lazy_load_instance_info`: on a cache miss, queries; raises
`RuntimeError` (`notFound`) when the query returns `None`, otherwise
stores the info in the cache.  Returns the info now held by the cache
together with the (possibly updated) handle. -/
def lazy_load_instance_info (w : World) (nd : EC2Node) :
    AccessOutcome Ec2Instance :=
  match nd.instance_info with
  | some info => { result := Except.ok info, node := nd, calls := [] }
  | none =>
      match query_for_instance_info w nd with
      | (none, calls) => { result := Except.error Err.notFound, node := nd, calls := calls }
      | (some info, calls) =>
          { result := Except.ok info,
            node := { nd with instance_info := some info },
            calls := calls }

/-- The `instance_id` property: lazy load, then project `InstanceId`. -/
def instance_id (w : World) (nd : EC2Node) : AccessOutcome String :=
  match lazy_load_instance_info w nd with
  | { result := Except.error e, node := nd', calls := cs } =>
      { result := Except.error e, node := nd', calls := cs }
  | { result := Except.ok info, node := nd', calls := cs } =>
      { result := Except.ok info.instanceId, node := nd', calls := cs }

/-- The `private_ip` property: lazy load, then project `PrivateIpAddress`. -/
def private_ip (w : World) (nd : EC2Node) : AccessOutcome String :=
  match lazy_load_instance_info w nd with
  | { result := Except.error e, node := nd', calls := cs } =>
      { result := Except.error e, node := nd', calls := cs }
  | { result := Except.ok info, node := nd', calls := cs } =>
      { result := Except.ok info.privateIpAddress, node := nd', calls := cs }

/-- The `public_ip` property: lazy load, then project `PublicIpAddress`
when that key is present, `None` otherwise. -/
def public_ip (w : World) (nd : EC2Node) : AccessOutcome (Option String) :=
  match lazy_load_instance_info w nd with
  | { result := Except.error e, node := nd', calls := cs } =>
      { result := Except.error e, node := nd', calls := cs }
  | { result := Except.ok info, node := nd', calls := cs } =>
      { result := Except.ok info.publicIpAddress, node := nd', calls := cs }

/-- The `security_groups` property: lazy load, then project the list of
`GroupId`s of `SecurityGroups`. -/
def security_groups (w : World) (nd : EC2Node) : AccessOutcome (List String) :=
  match lazy_load_instance_info w nd with
  | { result := Except.error e, node := nd', calls := cs } =>
      { result := Except.error e, node := nd', calls := cs }
  | { result := Except.ok info, node := nd', calls := cs } =>
      { result := Except.ok info.securityGroups, node := nd', calls := cs }

/-- `is_in_state`: one fresh `describe_instances` call with the Name-tag
filter and the given state list; true when any reservation matched.  The
method never reads or writes `self._instance_info`, so the handle passes
through unchanged.  (The Python convenience of passing a single state as a
bare string instead of a list is elided; every call site in the class
passes a list.) -/
def is_in_state (w : World) (nd : EC2Node) (states : List String) :
    Bool × EC2Node × List ApiCall :=
  (!(matchQuery w nd.name states).isEmpty, nd,
   [ApiCall.describeInstances nd.name states])

/-- `is_running_or_pending`: `is_in_state(['running', 'pending'])`. -/
def is_running_or_pending (w : World) (nd : EC2Node) :
    Bool × EC2Node × List ApiCall :=
  is_in_state w nd runningOrPending

/-- The provider effect of `modify_instance_attribute(InstanceId,
Groups)`: the named instance's attached group set becomes `groups`. -/
def modifyGroupsWorld (w : World) (iid : String) (groups : List String) : World :=
  w.map (fun i => if i.instanceId == iid then { i with securityGroups := groups } else i)

/-- `detach_security_group`: requires `is_running_or_pending()`, raising
`RuntimeError` (`invalidOperation`) otherwise; reads `self.security_groups`
(an accessor, so it may populate the cache), filters out `sg_id`, reads
`self.instance_id` (cache now warm), and issues one
`modify_instance_attribute` call with the filtered list. -/
def detach_security_group (w : World) (nd : EC2Node) (sg_id : String) :
    MutOutcome Unit :=
  match is_running_or_pending w nd with
  | (b, nd0, calls0) =>
    if !b then
      { result := Except.error Err.invalidOperation, node := nd0, world := w, calls := calls0 }
    else
      match security_groups w nd0 with
      | { result := Except.error e, node := nd1, calls := calls1 } =>
          { result := Except.error e, node := nd1, world := w, calls := calls0 ++ calls1 }
      | { result := Except.ok sgs, node := nd1, calls := calls1 } =>
          let new_sgs := sgs.filter (fun sg => sg != sg_id)
          match instance_id w nd1 with
          | { result := Except.error e, node := nd2, calls := calls2 } =>
              { result := Except.error e, node := nd2, world := w,
                calls := calls0 ++ calls1 ++ calls2 }
          | { result := Except.ok iid, node := nd2, calls := calls2 } =>
              { result := Except.ok (), node := nd2,
                world := modifyGroupsWorld w iid new_sgs,
                calls := calls0 ++ calls1 ++ calls2
                          ++ [ApiCall.modifyInstanceAttribute iid new_sgs] }

/-- The caller-facing parameter record of `launch`, with the same defaults
as the Python signature.  `tags=None` and `tags=[]` behave identically in
the source (both fail the `if tags:` truthiness guards), so both are
modelled as the empty list. -/
structure LaunchParams where
  az : String
  vpc_id : String
  subnet_id : String
  ami_id : String
  ebs_snapshot_id : String
  volume_size_gb : Nat
  volume_type : String
  key_name : String
  security_group_ids : List String
  iam_ec2_role_name : String
  instance_type : String
  placement_group_name : Option String := none
  iops : Option Nat := none
  eia_type : Option String := none
  ebs_optimized : Bool := true
  tags : List Tag := []
  dry_run : Bool := false
deriving DecidableEq, Repr

/-- `launch`'s validation block, in source order: non-empty
`security_group_ids`; `eia_type`, when given, starts with `"eia1"`;
`iops is not None` when `volume_type == 'io1'`; no caller tag whose key
is the reserved `"Name"`.  (The `isinstance`/shape asserts hold by typing
here.) -/
def validate_launch (p : LaunchParams) : Except Err Unit :=
  if p.security_group_ids.length = 0 then
    Except.error (Err.validation VKind.sgEmpty)
  else if (match p.eia_type with
           | some e => !(strStartsWith e "eia1")
           | none => false) then
    Except.error (Err.validation VKind.eiaType)
  else if p.volume_type == "io1" && p.iops.isNone then
    Except.error (Err.validation VKind.iopsRequired)
  else if p.tags.any (fun t => t.key == "Name") then
    Except.error (Err.validation VKind.tagNameReserved)
  else
    Except.ok ()

/-- Python truthiness of the optional integer `iops`: `if iops:` is false
both for `None` and for `0`. -/
def iopsTruthy : Option Nat → Bool
  | none => false
  | some n => n != 0

/-- The `run_instances` argument record `launch` assembles: the EBS block
(with `Iops` only when `iops` is truthy), the optional placement group,
the EIA list, and the `Name` tag followed by the caller's tags. -/
def buildRunCall (nd : EC2Node) (p : LaunchParams) : RunInstancesCall :=
  { ebs_params :=
      { snapshot_id := p.ebs_snapshot_id,
        volume_size_gb := p.volume_size_gb,
        volume_type := p.volume_type,
        iops := if iopsTruthy p.iops then p.iops else none },
    ami_id := p.ami_id,
    instance_type := p.instance_type,
    key_name := p.key_name,
    placement := { az := p.az, group_name := p.placement_group_name },
    security_group_ids := p.security_group_ids,
    subnet_id := p.subnet_id,
    dry_run := p.dry_run,
    ebs_optimized := p.ebs_optimized,
    iam_role := p.iam_ec2_role_name,
    eia_types := match p.eia_type with
                 | none => []
                 | some e => [e],
    all_tags := { key := "Name", value := nd.name } :: p.tags }

/-- The provider effect of a (non-dry-run) `run_instances` call: a new
instance appears in the pending state carrying the request's security
groups and tags.  `freshId` and `freshIp` are the provider-chosen
identifier and private address. -/
def createdInstance (call : RunInstancesCall) (freshId freshIp : String) : Ec2Instance :=
  { instanceId := freshId,
    state := "pending",
    privateIpAddress := freshIp,
    publicIpAddress := none,
    securityGroups := call.security_group_ids,
    tags := call.all_tags }

/-- `launch`: validate (raising `AssertionError` before any remote call on
failure), assemble the request, guard against a duplicate Name with
`is_running_or_pending()` (raising `RuntimeError` `alreadyExists`), then
issue exactly one `run_instances` call.  A dry run validates provider-side
without creating an instance. -/
def launch (w : World) (nd : EC2Node) (p : LaunchParams)
    (freshId freshIp : String) : MutOutcome RunInstancesCall :=
  match validate_launch p with
  | Except.error e => { result := Except.error e, node := nd, world := w, calls := [] }
  | Except.ok () =>
      let call := buildRunCall nd p
      match is_running_or_pending w nd with
      | (true, nd0, calls0) =>
          { result := Except.error Err.alreadyExists, node := nd0, world := w, calls := calls0 }
      | (false, nd0, calls0) =>
          { result := Except.ok call, node := nd0,
            world := if p.dry_run then w else w ++ [createdInstance call freshId freshIp],
            calls := calls0 ++ [ApiCall.runInstances call] }

/-- The provider effect of `terminate_instances`: the named instance
enters the shutting-down state. -/
def terminateWorld (w : World) (iid : String) : World :=
  w.map (fun i => if i.instanceId == iid then { i with state := "shutting-down" } else i)

/-- The provider effect of `delete_tags(Tags=[{'Key': 'Name'}])`: the
named instance loses its `Name` tag. -/
def deleteNameTagWorld (w : World) (iid : String) : World :=
  w.map (fun i => if i.instanceId == iid then
           { i with tags := i.tags.filter (fun t => t.key != "Name") } else i)

/-- `terminate`: reads `self.instance_id` (so a fresh handle resolves
here, raising `notFound` when nothing matches), issues one
`terminate_instances` call for that identifier, then removes the `Name`
tag from the instance.  No waiter is entered. -/
def terminate (w : World) (nd : EC2Node) (dry_run : Bool) : MutOutcome Unit :=
  match instance_id w nd with
  | { result := Except.error e, node := nd', calls := cs } =>
      { result := Except.error e, node := nd', world := w, calls := cs }
  | { result := Except.ok iid, node := nd', calls := cs } =>
      let w1 := if dry_run then w else terminateWorld w iid
      let w2 := deleteNameTagWorld w1 iid
      { result := Except.ok (), node := nd', world := w2,
        calls := cs ++ [ApiCall.terminateInstances [iid] dry_run,
                        ApiCall.deleteTags iid ["Name"]] }

/-- `wait_for_instance_to_be_terminated`: reads `self.instance_id`, then
blocks in the provider's `instance_terminated` waiter.  Only the trace
matters here; the blocking itself is provider-owned. -/
def wait_for_instance_to_be_terminated (w : World) (nd : EC2Node) :
    AccessOutcome Unit :=
  match instance_id w nd with
  | { result := Except.error e, node := nd', calls := cs } =>
      { result := Except.error e, node := nd', calls := cs }
  | { result := Except.ok _, node := nd', calls := cs } =>
      { result := Except.ok (), node := nd',
        calls := cs ++ [ApiCall.waiter "instance_terminated"] }

/-! Concrete sample data, used to instantiate the theorems below. -/

/-- A concrete running instance named `node-a` with a public address. -/
def sampleInfo : Ec2Instance :=
  { instanceId := "i-0aaa", state := "running",
    privateIpAddress := "10.0.0.1", publicIpAddress := some "3.4.5.6",
    securityGroups := ["sg-1", "sg-2"],
    tags := [{ key := "Name", value := "node-a" }] }

/-- A concrete running instance named `node-b` with no public address. -/
def sampleInfoNoPub : Ec2Instance :=
  { instanceId := "i-0bbb", state := "running",
    privateIpAddress := "10.0.0.2", publicIpAddress := none,
    securityGroups := ["sg-1"],
    tags := [{ key := "Name", value := "node-b" }] }

/-- A second concrete running instance also named `node-a`: together with
`sampleInfo` it realises a duplicate-Name world. -/
def sampleDup : Ec2Instance :=
  { instanceId := "i-0ccc", state := "running",
    privateIpAddress := "10.0.0.3", publicIpAddress := none,
    securityGroups := ["sg-9"],
    tags := [{ key := "Name", value := "node-a" }] }

/-- A handle for `node-a` whose cache already holds `sampleInfo`. -/
def warmNode : EC2Node :=
  { name := "node-a", region := "us-east-1", instance_info := some sampleInfo }

/-- A concrete valid launch parameter set. -/
def sampleParams : LaunchParams :=
  { az := "us-east-1a", vpc_id := "vpc-1", subnet_id := "subnet-1",
    ami_id := "ami-1", ebs_snapshot_id := "snap-1", volume_size_gb := 100,
    volume_type := "gp2", key_name := "key", security_group_ids := ["sg-1"],
    iam_ec2_role_name := "role", instance_type := "p3.16xlarge" }

/-- `sampleParams` with an empty security-group list. -/
def emptySgParams : LaunchParams := { sampleParams with security_group_ids := [] }

/-- `sampleParams` with an accelerator type outside the eia1 family. -/
def badEiaParams : LaunchParams := { sampleParams with eia_type := some "eia2.large" }

/-- `sampleParams` with an io1 volume and no IOPS value. -/
def io1NoIopsParams : LaunchParams := { sampleParams with volume_type := "io1" }

/-- `sampleParams` with a caller tag reusing the reserved Name key. -/
def nameTagParams : LaunchParams :=
  { sampleParams with tags := [{ key := "Name", value := "x" }] }

/-- `sampleParams` with an io1 volume and `iops=0`. -/
def ioZeroParams : LaunchParams :=
  { sampleParams with volume_type := "io1", iops := some 0 }

/-! Theorems -/

/-- C1: for every handle whose cache is still empty and whose name has
zero matching running/pending instances, `query_for_instance_info`
returns `None`, and each of the four attribute accessors raises the
not-found `RuntimeError` on this first access. -/
theorem c1_unresolvable_accessors_fail (w : World) (nd : EC2Node)
    (hc : nd.instance_info = none)
    (h : matchQuery w nd.name runningOrPending = []) :
    (query_for_instance_info w nd).1 = none ∧
    (instance_id w nd).result = Except.error Err.notFound ∧
    (private_ip w nd).result = Except.error Err.notFound ∧
    (public_ip w nd).result = Except.error Err.notFound ∧
    (security_groups w nd).result = Except.error Err.notFound := by
  simp [query_for_instance_info, instance_id, private_ip, public_ip,
        security_groups, lazy_load_instance_info, hc, h]

/-- Witness for C1 at the empty world and a fresh handle. -/
theorem c1_witness :
    (query_for_instance_info [] (EC2Node.init "node-a" "us-east-1")).1 = none ∧
    (instance_id [] (EC2Node.init "node-a" "us-east-1")).result = Except.error Err.notFound ∧
    (private_ip [] (EC2Node.init "node-a" "us-east-1")).result = Except.error Err.notFound ∧
    (public_ip [] (EC2Node.init "node-a" "us-east-1")).result = Except.error Err.notFound ∧
    (security_groups [] (EC2Node.init "node-a" "us-east-1")).result = Except.error Err.notFound :=
  c1_unresolvable_accessors_fail [] (EC2Node.init "node-a" "us-east-1") rfl rfl

/-- C5 counterexample: in a world holding two running instances that both
carry the Name tag `node-a`, `query_for_instance_info` does not fail and
does not report not-found: it silently returns the first match
(`Reservations[0].Instances[0]`), refuting "fails when more than one
match exists". -/
theorem c5_counterexample :
    (matchQuery [sampleInfo, sampleDup] "node-a" runningOrPending).length = 2 ∧
    (query_for_instance_info [sampleInfo, sampleDup]
        (EC2Node.init "node-a" "us-east-1")).1 = some sampleInfo ∧
    (query_for_instance_info [sampleInfo, sampleDup]
        (EC2Node.init "node-a" "us-east-1")).1 ≠ none := by
  refine ⟨by decide, by decide, by decide⟩

/-- C5 (amended): `query_for_instance_info` returns not-found (`None`)
when no running/pending instance matches, the single snapshot when
exactly one matches, and — rather than failing — the first matching
snapshot when more than one matches; it issues exactly one
`describe_instances` call. -/
theorem c5_query_resolution (w : World) (nd : EC2Node) (i : Ec2Instance)
    (rest : List Ec2Instance) :
    (matchQuery w nd.name runningOrPending = [] →
        (query_for_instance_info w nd).1 = none) ∧
    (matchQuery w nd.name runningOrPending = [i] →
        (query_for_instance_info w nd).1 = some i) ∧
    (matchQuery w nd.name runningOrPending = i :: rest →
        (query_for_instance_info w nd).1 = some i) ∧
    (query_for_instance_info w nd).2
      = [ApiCall.describeInstances nd.name runningOrPending] := by
  refine ⟨fun h => ?_, fun h => ?_, fun h => ?_, rfl⟩ <;>
    simp [query_for_instance_info, h]

/-- Witness for C5 over the empty, singleton and duplicate worlds. -/
theorem c5_witness :
    (query_for_instance_info [] (EC2Node.init "node-a" "us-east-1")).1 = none ∧
    (query_for_instance_info [sampleInfo] (EC2Node.init "node-a" "us-east-1")).1
      = some sampleInfo ∧
    (query_for_instance_info [sampleInfo, sampleDup]
        (EC2Node.init "node-a" "us-east-1")).1 = some sampleInfo :=
  ⟨(c5_query_resolution [] (EC2Node.init "node-a" "us-east-1") sampleInfo []).1 rfl,
   (c5_query_resolution [sampleInfo] (EC2Node.init "node-a" "us-east-1") sampleInfo []).2.1
     (by decide),
   (c5_query_resolution [sampleInfo, sampleDup] (EC2Node.init "node-a" "us-east-1")
       sampleInfo [sampleDup]).2.2.1 (by decide)⟩

/-- C9: for a resolvable instance, the `public_ip` accessor projects the
optional `PublicIpAddress` field — returning `None`, not raising, when
the snapshot lacks one — while `instance_id`, `private_ip` and
`security_groups` project their fields directly. Stated both for a warm
cache and for a cold cache that resolves to the snapshot. -/
theorem c9_public_ip_projection (w : World) (nd : EC2Node) (info : Ec2Instance) :
    (nd.instance_info = some info →
        (public_ip w nd).result = Except.ok info.publicIpAddress ∧
        (instance_id w nd).result = Except.ok info.instanceId ∧
        (private_ip w nd).result = Except.ok info.privateIpAddress ∧
        (security_groups w nd).result = Except.ok info.securityGroups) ∧
    (nd.instance_info = none →
        (matchQuery w nd.name runningOrPending).head? = some info →
        info.publicIpAddress = none →
        (public_ip w nd).result = Except.ok none) := by
  constructor
  · intro hc
    refine ⟨?_, ?_, ?_, ?_⟩ <;>
      simp [public_ip, instance_id, private_ip, security_groups,
            lazy_load_instance_info, hc]
  · intro hc hq hpub
    simp [public_ip, lazy_load_instance_info, query_for_instance_info, hc, hq, hpub]

/-- Witness for C9 at a cached snapshot with no public address and at a
cold handle resolving to it. -/
theorem c9_witness :
    (public_ip [] { name := "node-b", region := "us-east-1",
                    instance_info := some sampleInfoNoPub }).result = Except.ok none ∧
    (public_ip [sampleInfoNoPub] (EC2Node.init "node-b" "us-east-1")).result
      = Except.ok none := by
  constructor
  · have h := (c9_public_ip_projection []
      { name := "node-b", region := "us-east-1", instance_info := some sampleInfoNoPub }
      sampleInfoNoPub).1 rfl
    exact h.1
  · exact (c9_public_ip_projection [sampleInfoNoPub]
      (EC2Node.init "node-b" "us-east-1") sampleInfoNoPub).2 rfl (by decide) rfl

/-- C8: `is_in_state` is a stateless provider query: its boolean says
exactly whether some instance in the current world carries the handle's
Name tag in one of the given states, the handle (and so the cache) passes
through identically, the only remote call is the one fresh
`describe_instances`, and an attribute accessor invoked on the returned
handle of a cold handle still performs its own resolution query. -/
theorem c8_is_in_state_stateless (w : World) (nd : EC2Node) (states : List String) :
    ((is_in_state w nd states).1 = true ↔
        ∃ i ∈ w, hasNameTag i nd.name = true ∧ i.state ∈ states) ∧
    (is_in_state w nd states).2.1 = nd ∧
    (is_in_state w nd states).2.2 = [ApiCall.describeInstances nd.name states] ∧
    (nd.instance_info = none →
        (instance_id w (is_in_state w nd states).2.1).calls
          = [ApiCall.describeInstances nd.name runningOrPending]) := by
  refine ⟨?_, rfl, rfl, ?_⟩
  · simp [is_in_state, matchQuery]
  · intro hc
    cases hq : (matchQuery w nd.name runningOrPending).head? <;>
      simp [instance_id, lazy_load_instance_info, query_for_instance_info, is_in_state, hc, hq]

/-- Witness for C8 on a concrete one-instance world and a cold handle. -/
theorem c8_witness :
    ((is_in_state [sampleInfo] (EC2Node.init "node-a" "us-east-1") runningOrPending).1 = true ↔
        ∃ i ∈ [sampleInfo], hasNameTag i "node-a" = true ∧ i.state ∈ runningOrPending) ∧
    (is_in_state [sampleInfo] (EC2Node.init "node-a" "us-east-1") runningOrPending).2.1
      = EC2Node.init "node-a" "us-east-1" ∧
    (instance_id [sampleInfo]
        (is_in_state [sampleInfo] (EC2Node.init "node-a" "us-east-1") runningOrPending).2.1).calls
      = [ApiCall.describeInstances "node-a" runningOrPending] := by
  have h := c8_is_in_state_stateless [sampleInfo] (EC2Node.init "node-a" "us-east-1")
    runningOrPending
  exact ⟨h.1, h.2.1, h.2.2.2 rfl⟩

/-- C6: the cache is populated at most once.  On a cold handle the first
attribute access issues the one resolution query and memoizes its result;
on a warm handle every accessor returns the projection of the cached
snapshot with no remote call and an unchanged handle, and none of
`is_in_state`, `detach_security_group`, `launch` or `terminate` replaces
or clears the populated cache. -/
theorem c6_cache_populated_once (w : World) (nd : EC2Node) (info : Ec2Instance)
    (sg_id : String) (p : LaunchParams) (freshId freshIp : String)
    (dry : Bool) (states : List String) :
    (nd.instance_info = none →
        (instance_id w nd).calls = [ApiCall.describeInstances nd.name runningOrPending] ∧
        (instance_id w nd).node.instance_info
          = (matchQuery w nd.name runningOrPending).head?) ∧
    (nd.instance_info = some info →
        instance_id w nd
          = { result := Except.ok info.instanceId, node := nd, calls := [] } ∧
        private_ip w nd
          = { result := Except.ok info.privateIpAddress, node := nd, calls := [] } ∧
        public_ip w nd
          = { result := Except.ok info.publicIpAddress, node := nd, calls := [] } ∧
        security_groups w nd
          = { result := Except.ok info.securityGroups, node := nd, calls := [] } ∧
        (is_in_state w nd states).2.1.instance_info = some info ∧
        (detach_security_group w nd sg_id).node.instance_info = some info ∧
        (launch w nd p freshId freshIp).node.instance_info = some info ∧
        (terminate w nd dry).node.instance_info = some info) := by
  constructor
  · intro hc
    cases hq : (matchQuery w nd.name runningOrPending).head? <;>
      simp [instance_id, lazy_load_instance_info, query_for_instance_info, hc, hq]
  · intro hc
    refine ⟨?_, ?_, ?_, ?_, ?_, ?_, ?_, ?_⟩
    · simp [instance_id, lazy_load_instance_info, hc]
    · simp [private_ip, lazy_load_instance_info, hc]
    · simp [public_ip, lazy_load_instance_info, hc]
    · simp [security_groups, lazy_load_instance_info, hc]
    · simp [is_in_state, hc]
    · cases hm : (matchQuery w nd.name runningOrPending).isEmpty <;>
        simp [detach_security_group, is_running_or_pending, is_in_state,
              security_groups, instance_id, lazy_load_instance_info, hm, hc]
    · cases hv : validate_launch p with
      | error e => simp [launch, hv, hc]
      | ok u =>
          cases hm : (matchQuery w nd.name runningOrPending).isEmpty <;>
            simp [launch, hv, is_running_or_pending, is_in_state, hm, hc]
    · simp [terminate, instance_id, lazy_load_instance_info, hc]

/-- Witness for C6: a cold handle memoizes the resolved snapshot; a warm
handle's cache survives an accessor, a detach and a terminate. -/
theorem c6_witness :
    ((instance_id [sampleInfo] (EC2Node.init "node-a" "us-east-1")).node.instance_info
        = (matchQuery [sampleInfo] "node-a" runningOrPending).head?) ∧
    public_ip [sampleInfo] warmNode
      = { result := Except.ok (some "3.4.5.6"), node := warmNode, calls := [] } ∧
    (detach_security_group [sampleInfo] warmNode "sg-2").node.instance_info
      = some sampleInfo ∧
    (terminate [sampleInfo] warmNode false).node.instance_info = some sampleInfo := by
  have hcold := (c6_cache_populated_once [sampleInfo] (EC2Node.init "node-a" "us-east-1")
    sampleInfo "sg-2" sampleParams "i-new" "10.0.0.9" false runningOrPending).1 rfl
  have hwarm := (c6_cache_populated_once [sampleInfo] warmNode
    sampleInfo "sg-2" sampleParams "i-new" "10.0.0.9" false runningOrPending).2 rfl
  exact ⟨hcold.2, hwarm.2.2.1, hwarm.2.2.2.2.2.1, hwarm.2.2.2.2.2.2.2⟩

/-- C4: each of the four rejected launch parameter shapes — empty
security-group list, io1 volume with no IOPS value, a caller tag reusing
the reserved Name key, an accelerator type outside the eia1 family —
makes `launch` raise a validation error having issued no remote call at
all: neither the duplicate-name query nor the create call appears in the
trace. -/
theorem c4_validation_blocks_remote_calls (w : World) (nd : EC2Node)
    (p : LaunchParams) (freshId freshIp : String)
    (h : p.security_group_ids = []
       ∨ (∃ e, p.eia_type = some e ∧ strStartsWith e "eia1" = false)
       ∨ (p.volume_type = "io1" ∧ p.iops = none)
       ∨ (∃ t ∈ p.tags, t.key = "Name")) :
    (∃ k, (launch w nd p freshId freshIp).result = Except.error (Err.validation k)) ∧
    (launch w nd p freshId freshIp).calls = [] := by
  obtain ⟨k, hk⟩ : ∃ k, validate_launch p = Except.error (Err.validation k) := by
    by_cases h1 : p.security_group_ids.length = 0
    · exact ⟨VKind.sgEmpty, by simp [validate_launch, h1]⟩
    by_cases h2 : (match p.eia_type with
                   | some e => !(strStartsWith e "eia1")
                   | none => false) = true
    · exact ⟨VKind.eiaType, by simp [validate_launch, h1, h2]⟩
    by_cases h3 : (p.volume_type == "io1" && p.iops.isNone) = true
    · exact ⟨VKind.iopsRequired, by simp [validate_launch, h1, h2, h3]⟩
    by_cases h4 : (p.tags.any fun t => t.key == "Name") = true
    · exact ⟨VKind.tagNameReserved, by simp [validate_launch, h1, h2, h3, h4]⟩
    · exfalso
      rcases h with hsg | ⟨e, he, hs⟩ | ⟨hvol, hio⟩ | ⟨t, ht, hn⟩
      · exact h1 (by simp [hsg])
      · exact h2 (by simp [he, hs])
      · exact h3 (by simp [hvol, hio])
      · exact h4 (List.any_eq_true.mpr ⟨t, ht, by simp [hn]⟩)
  exact ⟨⟨k, by simp [launch, hk]⟩, by simp [launch, hk]⟩

/-- Witness for C4 at the four concrete malformed parameter sets. -/
theorem c4_witness :
    ((∃ k, (launch [] (EC2Node.init "node-a" "us-east-1") emptySgParams "i" "ip").result
        = Except.error (Err.validation k)) ∧
      (launch [] (EC2Node.init "node-a" "us-east-1") emptySgParams "i" "ip").calls = []) ∧
    ((∃ k, (launch [] (EC2Node.init "node-a" "us-east-1") badEiaParams "i" "ip").result
        = Except.error (Err.validation k)) ∧
      (launch [] (EC2Node.init "node-a" "us-east-1") badEiaParams "i" "ip").calls = []) ∧
    ((∃ k, (launch [] (EC2Node.init "node-a" "us-east-1") io1NoIopsParams "i" "ip").result
        = Except.error (Err.validation k)) ∧
      (launch [] (EC2Node.init "node-a" "us-east-1") io1NoIopsParams "i" "ip").calls = []) ∧
    ((∃ k, (launch [] (EC2Node.init "node-a" "us-east-1") nameTagParams "i" "ip").result
        = Except.error (Err.validation k)) ∧
      (launch [] (EC2Node.init "node-a" "us-east-1") nameTagParams "i" "ip").calls = []) := by
  refine ⟨?_, ?_, ?_, ?_⟩
  · exact c4_validation_blocks_remote_calls [] (EC2Node.init "node-a" "us-east-1")
      emptySgParams "i" "ip" (Or.inl rfl)
  · exact c4_validation_blocks_remote_calls [] (EC2Node.init "node-a" "us-east-1")
      badEiaParams "i" "ip" (Or.inr (Or.inl ⟨"eia2.large", rfl, by decide⟩))
  · exact c4_validation_blocks_remote_calls [] (EC2Node.init "node-a" "us-east-1")
      io1NoIopsParams "i" "ip" (Or.inr (Or.inr (Or.inl ⟨rfl, rfl⟩)))
  · exact c4_validation_blocks_remote_calls [] (EC2Node.init "node-a" "us-east-1")
      nameTagParams "i" "ip" (Or.inr (Or.inr (Or.inr
        ⟨{ key := "Name", value := "x" }, by simp [nameTagParams, sampleParams], rfl⟩)))

/-- C10: with `volume_type='io1'` and `iops=0`, validation passes (the
check only compares against `None`), yet the assembled EBS block omits
`Iops`, because `if iops:` gates inclusion on Python truthiness and `0`
is falsy; the create call goes out with no Iops field. -/
theorem c10_io1_zero_iops_truthiness (w : World) (nd : EC2Node) (p : LaunchParams)
    (freshId freshIp : String)
    (hvt : p.volume_type = "io1") (hio : p.iops = some 0)
    (hsg : p.security_group_ids ≠ [])
    (heia : ∀ e, p.eia_type = some e → strStartsWith e "eia1" = true)
    (htags : ∀ t ∈ p.tags, ¬ t.key = "Name") :
    validate_launch p = Except.ok () ∧
    (buildRunCall nd p).ebs_params.iops = none ∧
    ((matchQuery w nd.name runningOrPending).isEmpty = true →
        (launch w nd p freshId freshIp).calls
          = [ApiCall.describeInstances nd.name runningOrPending,
             ApiCall.runInstances (buildRunCall nd p)]) := by
  have htagsB : (p.tags.any fun t => t.key == "Name") = false := by
    simp only [List.any_eq_false]
    intro t ht
    simp [htags t ht]
  have hsgLen : ¬ p.security_group_ids.length = 0 := by
    simp [List.length_eq_zero, hsg]
  have hv : validate_launch p = Except.ok () := by
    cases he : p.eia_type with
    | none => simp [validate_launch, he, hsgLen, hvt, hio, htagsB]
    | some e => simp [validate_launch, he, hsgLen, hvt, hio, htagsB, heia e he]
  refine ⟨hv, ?_, ?_⟩
  · simp [buildRunCall, iopsTruthy, hio]
  · intro hm
    simp [launch, hv, is_running_or_pending, is_in_state, hm]

/-- Witness for C10 at the concrete io1/iops=0 parameter set. -/
theorem c10_witness :
    validate_launch ioZeroParams = Except.ok () ∧
    (buildRunCall (EC2Node.init "node-a" "us-east-1") ioZeroParams).ebs_params.iops = none ∧
    (launch [] (EC2Node.init "node-a" "us-east-1") ioZeroParams "i" "ip").calls
      = [ApiCall.describeInstances "node-a" runningOrPending,
         ApiCall.runInstances (buildRunCall (EC2Node.init "node-a" "us-east-1") ioZeroParams)] := by
  have h := c10_io1_zero_iops_truthiness [] (EC2Node.init "node-a" "us-east-1")
    ioZeroParams "i" "ip" rfl rfl (by decide)
    (by intro e he; simp [ioZeroParams, sampleParams] at he)
    (by intro t ht; simp [ioZeroParams, sampleParams] at ht)
  exact ⟨h.1, h.2.1, h.2.2 rfl⟩

/-- C2: once a running/pending instance carries the handle's Name,
a validated launch raises the duplicate error (`already exists`) and
issues no create-instance call; in particular a second launch issued
right after a successful first one (same name, no intervening terminate)
fails with the duplicate error and issues no second create call. -/
theorem c2_launch_duplicate_guard (w : World) (nd : EC2Node) (p : LaunchParams)
    (freshId freshIp freshId2 freshIp2 : String)
    (hv : validate_launch p = Except.ok ()) (hdry : p.dry_run = false) :
    ((matchQuery w nd.name runningOrPending).isEmpty = false →
        (launch w nd p freshId freshIp).result = Except.error Err.alreadyExists ∧
        ∀ c, ApiCall.runInstances c ∉ (launch w nd p freshId freshIp).calls) ∧
    ((matchQuery w nd.name runningOrPending).isEmpty = true →
        (launch w nd p freshId freshIp).result = Except.ok (buildRunCall nd p) ∧
        (launch (launch w nd p freshId freshIp).world (launch w nd p freshId freshIp).node
            p freshId2 freshIp2).result = Except.error Err.alreadyExists ∧
        ∀ c, ApiCall.runInstances c ∉
          (launch (launch w nd p freshId freshIp).world (launch w nd p freshId freshIp).node
            p freshId2 freshIp2).calls) := by
  constructor
  · intro hm
    constructor
    · simp [launch, hv, is_running_or_pending, is_in_state, hm]
    · intro c
      simp [launch, hv, is_running_or_pending, is_in_state, hm]
  · intro hm
    have h1 : launch w nd p freshId freshIp =
        { result := Except.ok (buildRunCall nd p), node := nd,
          world := w ++ [createdInstance (buildRunCall nd p) freshId freshIp],
          calls := [ApiCall.describeInstances nd.name runningOrPending,
                    ApiCall.runInstances (buildRunCall nd p)] } := by
      simp [launch, hv, is_running_or_pending, is_in_state, hm, hdry]
    have hm2 : (matchQuery (w ++ [createdInstance (buildRunCall nd p) freshId freshIp])
        nd.name runningOrPending).isEmpty = false := by
      simp [matchQuery, List.filter_append, hasNameTag, createdInstance,
            buildRunCall, runningOrPending]
    refine ⟨by rw [h1], ?_, ?_⟩
    · rw [h1]
      simp only [h1]
      simp [launch, hv, is_running_or_pending, is_in_state, hm2]
    · intro c
      simp only [h1]
      simp [launch, hv, is_running_or_pending, is_in_state, hm2]

/-- Witness for C2: in the empty world the first launch of `node-a`
succeeds and the immediate second launch fails as a duplicate. -/
theorem c2_witness :
    (launch [] (EC2Node.init "node-a" "us-east-1") sampleParams "i-1" "10.0.0.1").result
      = Except.ok (buildRunCall (EC2Node.init "node-a" "us-east-1") sampleParams) ∧
    (launch (launch [] (EC2Node.init "node-a" "us-east-1") sampleParams "i-1" "10.0.0.1").world
        (launch [] (EC2Node.init "node-a" "us-east-1") sampleParams "i-1" "10.0.0.1").node
        sampleParams "i-2" "10.0.0.2").result = Except.error Err.alreadyExists := by
  have h := (c2_launch_duplicate_guard [] (EC2Node.init "node-a" "us-east-1") sampleParams
    "i-1" "10.0.0.1" "i-2" "10.0.0.2" rfl rfl).2 rfl
  exact ⟨h.1, h.2.1⟩

/-- C3: `terminate` resolves through `instance_id` and fails with
not-found when nothing matches a cold handle; when the instance resolves
(warm cache, or cold cache with a match) the full trace is exactly one
`terminate_instances` call for that instance identifier followed by the
`delete_tags` call removing the Name tag — in that order, with no waiter
entered and nothing else issued. -/
theorem c3_terminate_order (w : World) (nd : EC2Node) (info : Ec2Instance) (dry : Bool) :
    (nd.instance_info = none → matchQuery w nd.name runningOrPending = [] →
        terminate w nd dry
          = { result := Except.error Err.notFound, node := nd, world := w,
              calls := [ApiCall.describeInstances nd.name runningOrPending] }) ∧
    (nd.instance_info = some info →
        terminate w nd dry
          = { result := Except.ok (), node := nd,
              world := deleteNameTagWorld
                (if dry then w else terminateWorld w info.instanceId) info.instanceId,
              calls := [ApiCall.terminateInstances [info.instanceId] dry,
                        ApiCall.deleteTags info.instanceId ["Name"]] }) ∧
    (nd.instance_info = none →
        (matchQuery w nd.name runningOrPending).head? = some info →
        terminate w nd dry
          = { result := Except.ok (), node := { nd with instance_info := some info },
              world := deleteNameTagWorld
                (if dry then w else terminateWorld w info.instanceId) info.instanceId,
              calls := [ApiCall.describeInstances nd.name runningOrPending,
                        ApiCall.terminateInstances [info.instanceId] dry,
                        ApiCall.deleteTags info.instanceId ["Name"]] }) := by
  refine ⟨fun hc hm => ?_, fun hc => ?_, fun hc hq => ?_⟩
  · simp [terminate, instance_id, lazy_load_instance_info, query_for_instance_info, hc, hm]
  · simp [terminate, instance_id, lazy_load_instance_info, hc]
  · simp [terminate, instance_id, lazy_load_instance_info, query_for_instance_info, hc, hq]

/-- Witness for C3: not-found on a cold handle over the empty world, and
the exact terminate-then-untag trace on a warm handle. -/
theorem c3_witness :
    terminate [] (EC2Node.init "node-a" "us-east-1") false
      = { result := Except.error Err.notFound,
          node := EC2Node.init "node-a" "us-east-1", world := [],
          calls := [ApiCall.describeInstances "node-a" runningOrPending] } ∧
    terminate [sampleInfo] warmNode false
      = { result := Except.ok (), node := warmNode,
          world := deleteNameTagWorld (terminateWorld [sampleInfo] "i-0aaa") "i-0aaa",
          calls := [ApiCall.terminateInstances ["i-0aaa"] false,
                    ApiCall.deleteTags "i-0aaa" ["Name"]] } := by
  constructor
  · exact (c3_terminate_order [] (EC2Node.init "node-a" "us-east-1") sampleInfo false).1 rfl rfl
  · exact (c3_terminate_order [sampleInfo] warmNode sampleInfo false).2.1 rfl

/-- `modify_instance_attribute` changes only attached group sets: Name
tags and states are untouched, so the describe filters select the same
instances (group-updated) before and after. -/
theorem matchQuery_modifyGroups (w : World) (iid : String) (gs : List String)
    (n : String) (sts : List String) :
    matchQuery (modifyGroupsWorld w iid gs) n sts
      = (matchQuery w n sts).map
          (fun i => if i.instanceId == iid then { i with securityGroups := gs } else i) := by
  have hfun : ((fun i => hasNameTag i n && sts.contains i.state) ∘
      (fun i => if i.instanceId == iid then { i with securityGroups := gs } else i))
      = (fun i => hasNameTag i n && sts.contains i.state) := by
    funext i
    by_cases hid : (i.instanceId == iid) = true <;>
      simp [hid, hasNameTag, Function.comp]
  rw [matchQuery, modifyGroupsWorld, List.filter_map, hfun]
  rfl

/-- Nonemptiness of the describe query is invariant under a group
modification. -/
theorem matchQuery_modifyGroups_isEmpty (w : World) (iid : String) (gs : List String)
    (n : String) (sts : List String) :
    (matchQuery (modifyGroupsWorld w iid gs) n sts).isEmpty
      = (matchQuery w n sts).isEmpty := by
  rw [matchQuery_modifyGroups]
  cases matchQuery w n sts <;> simp

/-- Setting the same group list twice is the same as setting it once. -/
theorem modifyGroupsWorld_idem (w : World) (iid : String) (gs : List String) :
    modifyGroupsWorld (modifyGroupsWorld w iid gs) iid gs
      = modifyGroupsWorld w iid gs := by
  induction w with
  | nil => rfl
  | cons i t ih =>
      simp only [modifyGroupsWorld, List.map_cons] at ih ⊢
      congr 1
      by_cases hid : (i.instanceId == iid) = true <;> simp [hid]

/-- A detach on a handle whose cache already holds `info`, while some
instance still matches the Name in running/pending: the state-guard
describe call, then one modify call with the cached groups minus
`sg_id`. -/
theorem detach_security_group_cached (w : World) (nd : EC2Node) (info : Ec2Instance)
    (sg_id : String)
    (hc : nd.instance_info = some info)
    (hm : (matchQuery w nd.name runningOrPending).isEmpty = false) :
    detach_security_group w nd sg_id
      = { result := Except.ok (), node := nd,
          world := modifyGroupsWorld w info.instanceId
                     (info.securityGroups.filter (fun sg => sg != sg_id)),
          calls := [ApiCall.describeInstances nd.name runningOrPending,
                    ApiCall.modifyInstanceAttribute info.instanceId
                      (info.securityGroups.filter (fun sg => sg != sg_id))] } := by
  simp [detach_security_group, is_running_or_pending, is_in_state, hm,
        security_groups, instance_id, lazy_load_instance_info, hc]

/-- A detach on a cold handle that resolves: two describe calls (state
guard, then lazy load) and one modify call computed from the freshly
cached snapshot. -/
theorem detach_security_group_uncached (w : World) (nd : EC2Node) (a : Ec2Instance)
    (t : List Ec2Instance) (sg_id : String)
    (hc : nd.instance_info = none)
    (hm : matchQuery w nd.name runningOrPending = a :: t) :
    detach_security_group w nd sg_id
      = { result := Except.ok (), node := { nd with instance_info := some a },
          world := modifyGroupsWorld w a.instanceId
                     (a.securityGroups.filter (fun sg => sg != sg_id)),
          calls := [ApiCall.describeInstances nd.name runningOrPending,
                    ApiCall.describeInstances nd.name runningOrPending,
                    ApiCall.modifyInstanceAttribute a.instanceId
                      (a.securityGroups.filter (fun sg => sg != sg_id))] } := by
  simp [detach_security_group, is_running_or_pending, is_in_state,
        security_groups, instance_id, lazy_load_instance_info,
        query_for_instance_info, hm, hc]

/-- C7: while the instance is running or pending, `detach_security_group`
is idempotent — the first call succeeds, an immediately repeated call
succeeds as well (removing an id that the issued group set no longer
holds is a no-op, not an error) and leaves the provider's group sets
exactly as one call left them; when no instance is running or pending the
call fails with the invalid-operation error and changes nothing. -/
theorem c7_detach_idempotent (w : World) (nd : EC2Node) (sg_id : String) :
    ((matchQuery w nd.name runningOrPending).isEmpty = true →
        (detach_security_group w nd sg_id).result = Except.error Err.invalidOperation ∧
        (detach_security_group w nd sg_id).world = w) ∧
    ((matchQuery w nd.name runningOrPending).isEmpty = false →
        (detach_security_group w nd sg_id).result = Except.ok () ∧
        (detach_security_group (detach_security_group w nd sg_id).world
            (detach_security_group w nd sg_id).node sg_id).result = Except.ok () ∧
        (detach_security_group (detach_security_group w nd sg_id).world
            (detach_security_group w nd sg_id).node sg_id).world
          = (detach_security_group w nd sg_id).world) := by
  constructor
  · intro hm
    constructor <;> simp [detach_security_group, is_running_or_pending, is_in_state, hm]
  · intro hm
    cases hc : nd.instance_info with
    | some info =>
        have h1 := detach_security_group_cached w nd info sg_id hc hm
        have hm2 : (matchQuery (modifyGroupsWorld w info.instanceId
            (info.securityGroups.filter (fun sg => sg != sg_id))) nd.name
              runningOrPending).isEmpty = false := by
          rw [matchQuery_modifyGroups_isEmpty]
          exact hm
        have h2 := detach_security_group_cached
          (modifyGroupsWorld w info.instanceId
            (info.securityGroups.filter (fun sg => sg != sg_id)))
          nd info sg_id hc hm2
        simp only [h1]
        simp only [h2]
        simp [modifyGroupsWorld_idem]
    | none =>
        cases hq : matchQuery w nd.name runningOrPending with
        | nil => rw [hq] at hm; simp at hm
        | cons a t =>
            have h1 := detach_security_group_uncached w nd a t sg_id hc hq
            have hm2 : (matchQuery (modifyGroupsWorld w a.instanceId
                (a.securityGroups.filter (fun sg => sg != sg_id))) nd.name
                  runningOrPending).isEmpty = false := by
              rw [matchQuery_modifyGroups_isEmpty]
              exact hm
            have h2 := detach_security_group_cached
              (modifyGroupsWorld w a.instanceId
                (a.securityGroups.filter (fun sg => sg != sg_id)))
              { nd with instance_info := some a } a sg_id rfl hm2
            simp only [h1]
            simp only [h2]
            simp [modifyGroupsWorld_idem]

/-- Witness for C7: invalid-operation on the empty world; on a world
where `node-a` runs, detaching `sg-2` twice equals detaching it once. -/
theorem c7_witness :
    (detach_security_group [] (EC2Node.init "node-a" "us-east-1") "sg-2").result
      = Except.error Err.invalidOperation ∧
    (detach_security_group [sampleInfo] warmNode "sg-2").result = Except.ok () ∧
    (detach_security_group (detach_security_group [sampleInfo] warmNode "sg-2").world
        (detach_security_group [sampleInfo] warmNode "sg-2").node "sg-2").result
      = Except.ok () ∧
    (detach_security_group (detach_security_group [sampleInfo] warmNode "sg-2").world
        (detach_security_group [sampleInfo] warmNode "sg-2").node "sg-2").world
      = (detach_security_group [sampleInfo] warmNode "sg-2").world := by
  refine ⟨((c7_detach_idempotent [] (EC2Node.init "node-a" "us-east-1") "sg-2").1 rfl).1,
    ?_, ?_, ?_⟩
  · exact ((c7_detach_idempotent [sampleInfo] warmNode "sg-2").2 (by decide)).1
  · exact ((c7_detach_idempotent [sampleInfo] warmNode "sg-2").2 (by decide)).2.1
  · exact ((c7_detach_idempotent [sampleInfo] warmNode "sg-2").2 (by decide)).2.2
